import Mathlib

/-! STMicroelectronics sensor-hub magnetometer client (`st_hub_magn.c`)

A shallow embedding of `drivers/iio/imu/st_sensor_hub/st_hub_magn.c`.

* Bytes (`u8`) are `Fin 256`; C `int`, `long` and `int64_t` values are `Int`,
  with the conversions that can change a value written out explicitly.
* Memory that the driver reads or writes through a pointer is a `List u8`;
  an access outside the list is undefined behaviour in C and is `none` here.
* The hub transport and the allocator are collaborators outside this file;
  they are a record of functions over an abstract world state `σ`, and every
  transport call the driver makes is also appended to a log.
-/

namespace StHubMagn

/-! ## Kernel types and constants used by the driver -/

/-- An octet, the C type `u8`. -/
abbrev u8 := Fin 256

/-- Errno value `EINVAL` of `include/uapi/asm-generic/errno-base.h`. -/
def EINVAL : Int := 22

/-- Errno value `EBUSY` of `include/uapi/asm-generic/errno-base.h`. -/
def EBUSY : Int := 16

/-- Return type tag `IIO_VAL_INT` of `include/linux/iio/types.h`. -/
def IIO_VAL_INT : Int := 1

/-- Return type tag `IIO_VAL_INT_PLUS_MICRO` of `include/linux/iio/types.h`. -/
def IIO_VAL_INT_PLUS_MICRO : Int := 2

/-- Member `IIO_CHAN_INFO_RAW` of `enum iio_chan_info_enum`. -/
def IIO_CHAN_INFO_RAW : Int := 0

/-- Member `IIO_CHAN_INFO_SCALE` of `enum iio_chan_info_enum`. -/
def IIO_CHAN_INFO_SCALE : Int := 2

/-- Device mode `INDIO_BUFFER_TRIGGERED` of `include/linux/iio/iio.h`. -/
def INDIO_BUFFER_TRIGGERED : Nat := 2

/-- The C macro `BIT(n)`. -/
def BIT (n : Nat) : Nat := 1 <<< n

/-- Channel types used by the table (`enum iio_chan_type`). -/
inductive iio_chan_type where
  | IIO_MAGN
  | IIO_TIMESTAMP
  deriving DecidableEq, Repr

/-- Channel modifiers used by the table (`enum iio_modifier`). -/
inductive iio_modifier where
  | IIO_NO_MOD
  | IIO_MOD_X
  | IIO_MOD_Y
  | IIO_MOD_Z
  | IIO_MOD_ACCURACY
  deriving DecidableEq, Repr

/-- Byte order of a channel (`enum iio_endian`). -/
inductive iio_endian where
  | IIO_CPU
  | IIO_BE
  | IIO_LE
  deriving DecidableEq, Repr

/-- The `scan_type` member of `struct iio_chan_spec`. -/
structure iio_scan_type where
  sign : Char
  realbits : Nat
  storagebits : Nat
  shift : Nat
  endianness : iio_endian
  deriving DecidableEq, Repr

/-- The members of `struct iio_chan_spec` that the driver sets or reads. -/
structure iio_chan_spec where
  type : iio_chan_type
  modified : Nat
  channel2 : iio_modifier
  info_mask_separate : Nat
  scan_index : Nat
  scan_type : iio_scan_type
  deriving DecidableEq, Repr

/-- Modelled from the spec: the macro `ST_HUB_DEVICE_CHANNEL` is declared in
`st_sensor_hub.h`, which is not among the sources. Section 4.1 of the
specification gives X, Y, Z as 16-bit little-endian signed values and accuracy
as an 8-bit unsigned value, so the two width arguments are the real and the
storage width; the two arguments after the info mask are the extended-info
table and the declared shift. -/
def ST_HUB_DEVICE_CHANNEL (device_type : iio_chan_type) (index mod : Nat)
    (mod_type : iio_modifier) (endian : iio_endian) (rbits sbits mask : Nat)
    (_ext_info : Nat) (shift_bits : Nat) (sign : Char) : iio_chan_spec :=
  { type := device_type
    modified := mod
    channel2 := mod_type
    info_mask_separate := mask
    scan_index := index
    scan_type :=
      { sign := sign, realbits := rbits, storagebits := sbits,
        shift := shift_bits, endianness := endian } }

/-- The kernel macro `IIO_CHAN_SOFT_TIMESTAMP(_si)` of `include/linux/iio/iio.h`. -/
def IIO_CHAN_SOFT_TIMESTAMP (si : Nat) : iio_chan_spec :=
  { type := iio_chan_type.IIO_TIMESTAMP
    modified := 0
    channel2 := iio_modifier.IIO_NO_MOD
    info_mask_separate := 0
    scan_index := si
    scan_type :=
      { sign := 's', realbits := 64, storagebits := 64,
        shift := 0, endianness := iio_endian.IIO_CPU } }

/-- The constant `ST_HUB_MAGN_NUM_DATA_CH`. -/
def ST_HUB_MAGN_NUM_DATA_CH : Nat := 4

/-- The channel table `st_hub_magn_ch[]`. -/
def st_hub_magn_ch : List iio_chan_spec :=
  [ ST_HUB_DEVICE_CHANNEL iio_chan_type.IIO_MAGN 0 1 iio_modifier.IIO_MOD_X
      iio_endian.IIO_LE 16 16
      (BIT IIO_CHAN_INFO_RAW.toNat ||| BIT IIO_CHAN_INFO_SCALE.toNat) 0 0 's',
    ST_HUB_DEVICE_CHANNEL iio_chan_type.IIO_MAGN 1 1 iio_modifier.IIO_MOD_Y
      iio_endian.IIO_LE 16 16
      (BIT IIO_CHAN_INFO_RAW.toNat ||| BIT IIO_CHAN_INFO_SCALE.toNat) 0 0 's',
    ST_HUB_DEVICE_CHANNEL iio_chan_type.IIO_MAGN 2 1 iio_modifier.IIO_MOD_Z
      iio_endian.IIO_LE 16 16
      (BIT IIO_CHAN_INFO_RAW.toNat ||| BIT IIO_CHAN_INFO_SCALE.toNat) 0 0 's',
    ST_HUB_DEVICE_CHANNEL iio_chan_type.IIO_MAGN 3 1 iio_modifier.IIO_MOD_ACCURACY
      iio_endian.IIO_LE 8 8
      (BIT IIO_CHAN_INFO_RAW.toNat) 0 0 'u',
    IIO_CHAN_SOFT_TIMESTAMP 4 ]

/-! ## Device state -/

/-- The members of `struct st_hub_common_data` read by the driver
(`mdata->cdata->payload_byte`, `mdata->cdata->gain`). -/
structure st_hub_common_data where
  payload_byte : Nat
  gain : Int
  deriving DecidableEq, Repr

/-- The members of `struct st_hub_sensor_data` used by the driver: the shared
common data and the scratch `buffer` the push pipeline packs into. -/
structure st_hub_sensor_data where
  cdata : st_hub_common_data
  buffer : List u8
  deriving DecidableEq, Repr

/-- The member of `struct st_hub_pdata_info` used by the driver besides the hub
handle: the device index on the hub. -/
structure st_hub_pdata_info where
  index : Nat
  deriving DecidableEq, Repr

/-- The members of `struct iio_dev` the driver reads, with its private data
(`iio_priv`) and the platform data of its parent inlined. -/
structure iio_dev where
  channels : List iio_chan_spec
  currentmode : Nat
  active_scan_mask : Nat
  mdata : st_hub_sensor_data
  info : st_hub_pdata_info
  deriving DecidableEq, Repr

/-- The kernel bit test `test_bit(nr, addr)` on a bitmap held as a number. -/
def test_bit (nr : Nat) (addr : Nat) : Bool := addr.testBit nr

/-- The C library `memcpy(&dst[doff], &src[soff], n)`; `none` when either range
leaves its object. -/
def memcpy (dst : List u8) (doff : Nat) (src : List u8) (soff n : Nat) :
    Option (List u8) :=
  if doff + n ≤ dst.length ∧ soff + n ≤ src.length then
    some (dst.take doff ++ (src.drop soff).take n ++ dst.drop (doff + n))
  else
    none

/-! ## Decode and push pipeline -/

/-- Loop state of `st_hub_magn_push_data`: the read cursor `sensor_data` (as an
offset into `data`), the write cursor `init_copy` and the scratch buffer. -/
structure push_state where
  sensor_data : Nat
  init_copy : Nat
  buffer : List u8
  deriving DecidableEq, Repr

/-- One iteration of the `for` loop of `st_hub_magn_push_data`. -/
def push_data_step (indio_dev : iio_dev) (data : List u8) (st : push_state)
    (i : Nat) : Option push_state :=
  match indio_dev.channels[i]? with
  | none => none
  | some ch =>
    let byte_for_channel := ch.scan_type.storagebits >>> 3
    if test_bit i indio_dev.active_scan_mask then
      match memcpy st.buffer st.init_copy data st.sensor_data byte_for_channel with
      | none => none
      | some buffer =>
        some { sensor_data := st.sensor_data + byte_for_channel
               init_copy := st.init_copy + byte_for_channel
               buffer := buffer }
    else
      some { st with sensor_data := st.sensor_data + byte_for_channel }

/-- What `st_hub_magn_push_data` leaves behind: the scratch buffer, the number
of bytes packed at its front, and the appends made to the streaming sink
(`iio_push_to_buffers_with_timestamp`), each with the buffer and timestamp it
was given. -/
structure push_result where
  buffer : List u8
  init_copy : Nat
  sink : List (List u8 × Int)
  deriving DecidableEq, Repr

/-- The function `st_hub_magn_push_data(pdev, data, timestamp)`. -/
def st_hub_magn_push_data (indio_dev : iio_dev) (data : List u8)
    (timestamp : Int) : Option push_result :=
  match (List.range ST_HUB_MAGN_NUM_DATA_CH).foldlM (push_data_step indio_dev data)
      { sensor_data := 0, init_copy := 0, buffer := indio_dev.mdata.buffer } with
  | none => none
  | some st =>
    some { buffer := st.buffer, init_copy := st.init_copy,
           sink := [(st.buffer, timestamp)] }

/-! ## Hub transport -/

/-- A call made to the hub transport, with the arguments after the hub handle. -/
inductive hub_call where
  | st_hub_set_enable (index : Nat) (en : Bool) (a1 : Bool) (a2 : Nat) (a3 : Bool)
  | st_hub_read_axis_data_asincronous (index : Nat) (len : Nat)
  | st_hub_send (command : List u8) (command_len : Nat) (wait : Bool)
  deriving DecidableEq, Repr

/-- The collaborators of the direct-read and calibration paths, as functions
over the state `σ` of everything outside the driver. Each returns the C return
value and the next state; the blocking read also returns the contents it left
in the caller's buffer; `kmalloc` returns whether the allocation succeeded. -/
structure hub_transport (σ : Type) where
  st_hub_set_enable : σ → Nat → Bool → Bool → Nat → Bool → Int × σ
  st_hub_read_axis_data_asincronous : σ → Nat → Nat → Int × List u8 × σ
  st_hub_send : σ → List u8 → Nat → Bool → Int × σ
  kmalloc : σ → Nat → Bool × σ

/-- The helper `get_unaligned_le16(&p[off])` of `asm/unaligned.h`; `none` when
either byte lies outside `p`. -/
def get_unaligned_le16 (p : List u8) (off : Nat) : Option Nat :=
  match p[off]?, p[off + 1]? with
  | some lo, some hi => some (lo.val ||| (hi.val <<< 8))
  | _, _ => none

/-- The C cast `(s16)` of a 16-bit unsigned value. -/
def s16 (v : Nat) : Int :=
  if v % 65536 < 32768 then ((v % 65536 : Nat) : Int)
  else ((v % 65536 : Nat) : Int) - 65536

/-- The decode at the end of `st_hub_read_axis_data`: the value stored through
`data`, or `none` when the access leaves `outdata`. The product is computed in
`unsigned int`. -/
def read_axis_decode (outdata : List u8) (byte_for_channel index : Nat) :
    Option Int :=
  let off := (byte_for_channel * index) % 2 ^ 32
  if index = ST_HUB_MAGN_NUM_DATA_CH - 1 then
    match outdata[off]? with
    | some b => some (b.val : Int)
    | none => none
  else
    match get_unaligned_le16 outdata off with
    | some v => some (s16 v)
    | none => none

/-- What `st_hub_read_axis_data` leaves behind: its return value, the value
stored through `data` (`none` when `*data` is not written), the state of the
collaborators and the transport calls made, in order. -/
structure axis_result (σ : Type) where
  err : Int
  data : Option Int
  hub : σ
  calls : List hub_call

/-- The function `st_hub_read_axis_data(indio_dev, index, data)`. -/
def st_hub_read_axis_data {σ : Type} (k : hub_transport σ) (hdata : σ)
    (indio_dev : iio_dev) (index : Nat) : Option (axis_result σ) :=
  match indio_dev.channels[0]? with
  | none => none
  | some ch0 =>
    let byte_for_channel := ch0.scan_type.storagebits >>> 3
    let payload_byte := indio_dev.mdata.cdata.payload_byte
    let m := k.kmalloc hdata payload_byte
    if m.1 = false then
      some { err := -EINVAL, data := none, hub := m.2, calls := [] }
    else
      let en := k.st_hub_set_enable m.2 indio_dev.info.index true true 0 true
      let c1 := [hub_call.st_hub_set_enable indio_dev.info.index true true 0 true]
      if en.1 < 0 then
        some { err := en.1, data := none, hub := en.2, calls := c1 }
      else
        let rd := k.st_hub_read_axis_data_asincronous en.2 indio_dev.info.index
          payload_byte
        let c2 := c1 ++
          [hub_call.st_hub_read_axis_data_asincronous indio_dev.info.index payload_byte]
        if rd.1 < 0 then
          some { err := rd.1, data := none, hub := rd.2.2, calls := c2 }
        else
          let dis := k.st_hub_set_enable rd.2.2 indio_dev.info.index false true 0 true
          let c3 := c2 ++
            [hub_call.st_hub_set_enable indio_dev.info.index false true 0 true]
          if dis.1 < 0 then
            some { err := dis.1, data := none, hub := dis.2, calls := c3 }
          else
            match read_axis_decode rd.2.1 byte_for_channel index with
            | none => none
            | some v => some { err := dis.1, data := some v, hub := dis.2, calls := c3 }

/-- Width of the C type `int`. -/
def BITS_PER_INT : Nat := 32

/-- What `st_hub_magn_read_raw` leaves behind: its return value, the final
`*val` and `*val2`, the state of the collaborators and the transport calls. -/
structure read_raw_result (σ : Type) where
  ret : Int
  val : Int
  val2 : Int
  hub : σ
  calls : List hub_call

/-- The function `st_hub_magn_read_raw(indio_dev, ch, val, val2, mask)`. The
shift `*val >> ch->scan_type.shift` of a signed `int` is the arithmetic shift
the kernel's compiler emits; a shift count of `BITS_PER_INT` or more is
undefined behaviour in C and is `none` here. -/
def st_hub_magn_read_raw {σ : Type} (k : hub_transport σ) (hdata : σ)
    (indio_dev : iio_dev) (ch : iio_chan_spec) (mask : Int) :
    Option (read_raw_result σ) :=
  let val : Int := 0
  let val2 : Int := 0
  if mask = IIO_CHAN_INFO_RAW then
    if indio_dev.currentmode = INDIO_BUFFER_TRIGGERED then
      some { ret := -EBUSY, val := val, val2 := val2, hub := hdata, calls := [] }
    else
      match st_hub_read_axis_data k hdata indio_dev ch.scan_index with
      | none => none
      | some r =>
        let val := match r.data with
          | some v => v
          | none => val
        if r.err < 0 then
          some { ret := r.err, val := val, val2 := val2, hub := r.hub, calls := r.calls }
        else if BITS_PER_INT ≤ ch.scan_type.shift then
          none
        else
          some { ret := IIO_VAL_INT, val := val >>> ch.scan_type.shift, val2 := val2,
                 hub := r.hub, calls := r.calls }
  else if mask = IIO_CHAN_INFO_SCALE then
    some { ret := IIO_VAL_INT_PLUS_MICRO, val := val, val2 := indio_dev.mdata.cdata.gain,
           hub := hdata, calls := [] }
  else
    some { ret := -EINVAL, val := val, val2 := val2, hub := hdata, calls := [] }

/-! ## Calibration command -/

/-- The two constants of `st_sensor_hub.h` used by the calibration command.
The header is not among the sources, so their values are parameters. -/
structure st_sensor_hub_h where
  ST_HUB_SINGLE_FORCE_CALIB : Nat
  ST_MAGN_INDEX : Nat
  deriving DecidableEq, Repr

/-- Storing an integer constant in a `u8` object. -/
def to_u8 (n : Nat) : u8 := ⟨n % 256, Nat.mod_lt n (by decide)⟩

/-- Width of `long`, `size_t` and `ssize_t` on the 64-bit ARM target. -/
def BITS_PER_LONG : Nat := 64

/-- Conversion of an `int` to `size_t`, as the conditional operator does to its
second operand when the third is a `size_t`. -/
def to_size_t (x : Int) : Nat := (x % 2 ^ BITS_PER_LONG).toNat

/-- Conversion of a `size_t` to the `ssize_t` return type. -/
def to_ssize_t (n : Nat) : Int :=
  if n % 2 ^ BITS_PER_LONG < 2 ^ (BITS_PER_LONG - 1) then
    ((n % 2 ^ BITS_PER_LONG : Nat) : Int)
  else
    ((n % 2 ^ BITS_PER_LONG : Nat) : Int) - 2 ^ BITS_PER_LONG

/-- What `st_hub_force_magn_calibration` leaves behind. -/
structure calib_result (σ : Type) where
  ret : Int
  hub : σ
  calls : List hub_call

/-- The function `st_hub_force_magn_calibration(dev, attr, buf, size)`. -/
def st_hub_force_magn_calibration {σ : Type} (hdr : st_sensor_hub_h)
    (k : hub_transport σ) (hdata : σ) (_buf : List u8) (size : Nat) :
    calib_result σ :=
  let command : List u8 :=
    [to_u8 hdr.ST_HUB_SINGLE_FORCE_CALIB, to_u8 hdr.ST_MAGN_INDEX]
  let r := k.st_hub_send hdata command command.length true
  let err := r.1
  { ret := to_ssize_t (if err < 0 then to_size_t err else size)
    hub := r.2
    calls := [hub_call.st_hub_send command command.length true] }

/-! ## Registration and lifecycle -/

/-- The push callbacks the hub can hold: the one this file defines, and those
of other sensor clients. -/
inductive push_data_fn where
  | st_hub_magn_push_data
  | foreign (id : Nat)
  deriving DecidableEq, Repr

/-- The record `struct st_sensor_hub_callbacks` handed to the hub. -/
structure st_sensor_hub_callbacks where
  pdev : Nat
  push_data : push_data_fn
  deriving DecidableEq, Repr

/-- A call made by `st_hub_magn_probe` or `st_hub_magn_remove` to a
collaborator. -/
inductive lifecycle_call where
  | iio_device_alloc
  | st_hub_get_common_data (index : Nat)
  | st_hub_set_default_values
  | iio_triggered_buffer_setup
  | st_hub_setup_trigger_sensor
  | iio_device_register
  | st_hub_register_callback (callback : st_sensor_hub_callbacks) (index : Nat)
  | iio_device_unregister
  | st_hub_remove_trigger
  | iio_triggered_buffer_cleanup
  | iio_device_free
  deriving DecidableEq, Repr

/-- The state the lifecycle functions act on: the callback table of the hub
transport by device index, whether the device session state is allocated and
the hub device index it holds (section 3 of the specification lists
`hub_device_index` among its members), whether the triggered buffer and the
hardware trigger are set up, whether the device is published, and the
collaborator calls made so far. -/
structure lifecycle_world where
  callbacks : Nat → Option st_sensor_hub_callbacks
  device_allocated : Bool
  hub_device_index : Option Nat
  buffer_setup : Bool
  trigger_setup : Bool
  device_registered : Bool
  calls : List lifecycle_call

/-- Modelled from the spec: `iio_device_alloc` belongs to the generic sensor
infrastructure, which is not among the sources; section 4.5: attach allocates
the Device Session State. -/
def iio_device_alloc (ok : Bool) (w : lifecycle_world) : lifecycle_world :=
  { w with device_allocated := w.device_allocated || ok
           calls := w.calls ++ [lifecycle_call.iio_device_alloc] }

/-- Modelled from the spec: `iio_device_free` belongs to the generic sensor
infrastructure, which is not among the sources; section 4.5: detach releases
the Device Session State. -/
def iio_device_free (w : lifecycle_world) : lifecycle_world :=
  { w with device_allocated := false
           hub_device_index := none
           calls := w.calls ++ [lifecycle_call.iio_device_free] }

/-- Modelled from the spec: `st_hub_get_common_data` belongs to the hub
transport, which is not among the sources; section 6: a static per-device
metadata lookup. -/
def st_hub_get_common_data (w : lifecycle_world) (index : Nat) : lifecycle_world :=
  { w with calls := w.calls ++ [lifecycle_call.st_hub_get_common_data index] }

/-- Modelled from the spec: `st_hub_set_default_values` belongs to the hub
transport, which is not among the sources; section 4.5: attach configures
default sampling parameters. It is the call that receives both the session
state and the platform data, so it is where the session state comes to hold
the hub device index (section 3). -/
def st_hub_set_default_values (w : lifecycle_world) (index : Nat) : lifecycle_world :=
  { w with hub_device_index := some index
           calls := w.calls ++ [lifecycle_call.st_hub_set_default_values] }

/-- Modelled from the spec: `iio_triggered_buffer_setup` belongs to the
streaming-buffer infrastructure, which is not among the sources; it succeeds
with return value 0. -/
def iio_triggered_buffer_setup (err : Int) (w : lifecycle_world) : lifecycle_world :=
  { w with buffer_setup := w.buffer_setup || decide (err = 0)
           calls := w.calls ++ [lifecycle_call.iio_triggered_buffer_setup] }

/-- Modelled from the spec: `iio_triggered_buffer_cleanup` belongs to the
streaming-buffer infrastructure, which is not among the sources. -/
def iio_triggered_buffer_cleanup (w : lifecycle_world) : lifecycle_world :=
  { w with buffer_setup := false
           calls := w.calls ++ [lifecycle_call.iio_triggered_buffer_cleanup] }

/-- Modelled from the spec: `st_hub_setup_trigger_sensor` belongs to the hub
transport, which is not among the sources; it creates the hardware trigger
resource and fails with a negative return value. -/
def st_hub_setup_trigger_sensor (err : Int) (w : lifecycle_world) : lifecycle_world :=
  { w with trigger_setup := w.trigger_setup || decide (0 ≤ err)
           calls := w.calls ++ [lifecycle_call.st_hub_setup_trigger_sensor] }

/-- Modelled from the spec: `st_hub_remove_trigger` belongs to the hub
transport, which is not among the sources; it receives the session state only.
Section 4.5 words this step of detach as "deregister the callback and any
hardware trigger resource": the callback held for the hub device index of the
session state is dropped and the trigger resource removed. -/
def st_hub_remove_trigger (w : lifecycle_world) : lifecycle_world :=
  { w with callbacks := fun i => if w.hub_device_index = some i then none else w.callbacks i
           trigger_setup := false
           calls := w.calls ++ [lifecycle_call.st_hub_remove_trigger] }

/-- Modelled from the spec: `iio_device_register` belongs to the generic sensor
infrastructure, which is not among the sources; section 4.5: attach publishes
the device; it succeeds with return value 0. -/
def iio_device_register (err : Int) (w : lifecycle_world) : lifecycle_world :=
  { w with device_registered := w.device_registered || decide (err = 0)
           calls := w.calls ++ [lifecycle_call.iio_device_register] }

/-- Modelled from the spec: `iio_device_unregister` belongs to the generic
sensor infrastructure, which is not among the sources; section 4.5: detach
unpublishes the device. -/
def iio_device_unregister (w : lifecycle_world) : lifecycle_world :=
  { w with device_registered := false
           calls := w.calls ++ [lifecycle_call.iio_device_unregister] }

/-- Modelled from the spec: `st_hub_register_callback` belongs to the hub
transport, which is not among the sources; section 6:
`register_push_callback(handle, device_index, callback)` registers the
streaming delivery sink for that device index. -/
def st_hub_register_callback (w : lifecycle_world)
    (callback : st_sensor_hub_callbacks) (index : Nat) : lifecycle_world :=
  { w with callbacks := fun i => if i = index then some callback else w.callbacks i
           calls := w.calls ++ [lifecycle_call.st_hub_register_callback callback index] }

/-- Byte offset of channel `i` in the payload: 0, 2, 4, 6 for X, Y, Z and
accuracy. -/
def payload_offset (i : Nat) : Nat := [0, 2, 4, 6].getD i 0

/-- Storage width in bytes of channel `i` of the channel table. -/
def storage_width (i : Nat) : Nat :=
  match st_hub_magn_ch[i]? with
  | some ch => ch.scan_type.storagebits / 8
  | none => 0

/-- The bytes of channel `i` in a payload: `storage_width i` bytes from
`payload_offset i`. -/
def channel_bytes (payload : List u8) (i : Nat) : List u8 :=
  (payload.drop (payload_offset i)).take (storage_width i)

/-- The packed record: the bytes of the active channels, in declared order. -/
def packed_record (payload : List u8) (mask : Nat) : List u8 :=
  (List.range ST_HUB_MAGN_NUM_DATA_CH).flatMap
    (fun i => if mask.testBit i then channel_bytes payload i else [])

/-- The sum of the storage widths of the active channels. -/
def packed_length (mask : Nat) : Nat :=
  ((List.range ST_HUB_MAGN_NUM_DATA_CH).map
    (fun i => if mask.testBit i then storage_width i else 0)).sum

/-- A signed little-endian 16-bit integer made of a low and a high byte. -/
def signed_le16 (lo hi : u8) : Int :=
  if lo.val + 256 * hi.val < 32768 then ((lo.val + 256 * hi.val : Nat) : Int)
  else ((lo.val + 256 * hi.val : Nat) : Int) - 65536

/-- The value of channel `i` in a payload as the specification states it: for
the accuracy channel the byte at its offset, unsigned; for an axis the two
bytes at its offset as a signed little-endian 16-bit integer. Bytes outside the
payload read as 0. -/
def channel_value (payload : List u8) (i : Nat) : Int :=
  if i = 3 then
    ((payload.getD (payload_offset i) 0).val : Int)
  else
    signed_le16 (payload.getD (payload_offset i) 0) (payload.getD (payload_offset i + 1) 0)

/-- The transport calls of a complete direct read of device `index` with
payload length `len`: enable, blocking read, disable. -/
def direct_read_calls (index len : Nat) : List hub_call :=
  [ hub_call.st_hub_set_enable index true true 0 true,
    hub_call.st_hub_read_axis_data_asincronous index len,
    hub_call.st_hub_set_enable index false true 0 true ]

/-! ## The steps of a direct read, named -/

/-- The outcome of the allocation at the start of a direct read. -/
def run_kmalloc {σ : Type} (k : hub_transport σ) (hdata : σ) (indio_dev : iio_dev) :
    Bool × σ :=
  k.kmalloc hdata indio_dev.mdata.cdata.payload_byte

/-- The outcome of the enable call of a direct read. -/
def run_enable {σ : Type} (k : hub_transport σ) (hdata : σ) (indio_dev : iio_dev) :
    Int × σ :=
  k.st_hub_set_enable (run_kmalloc k hdata indio_dev).2 indio_dev.info.index
    true true 0 true

/-- The outcome of the blocking read of a direct read. -/
def run_read {σ : Type} (k : hub_transport σ) (hdata : σ) (indio_dev : iio_dev) :
    Int × List u8 × σ :=
  k.st_hub_read_axis_data_asincronous (run_enable k hdata indio_dev).2
    indio_dev.info.index indio_dev.mdata.cdata.payload_byte

/-- The outcome of the disable call of a direct read. -/
def run_disable {σ : Type} (k : hub_transport σ) (hdata : σ) (indio_dev : iio_dev) :
    Int × σ :=
  k.st_hub_set_enable (run_read k hdata indio_dev).2.2 indio_dev.info.index
    false true 0 true

/-! ## Sample inputs -/

/-- A magnetometer device as `st_hub_magn_probe` sets it up, with a 16-byte
scratch buffer, a 7-byte payload and hub index 3. -/
def sample_dev (currentmode active_scan_mask : Nat) : iio_dev :=
  { channels := st_hub_magn_ch
    currentmode := currentmode
    active_scan_mask := active_scan_mask
    mdata := { cdata := { payload_byte := 7, gain := 1 }
               buffer := List.replicate 16 0 }
    info := { index := 3 } }

/-- The payload of the specification's scenarios: X = 1, Y = 2, Z = 3,
accuracy = 5. -/
def sample_payload : List u8 := [0x01, 0x00, 0x02, 0x00, 0x03, 0x00, 0x05]

/-- A transport over a call counter whose enable, read, disable and send calls
return the given codes and whose read delivers the given payload. -/
def sample_transport (en rd dis snd : Int) (payload : List u8) : hub_transport Nat :=
  { st_hub_set_enable := fun s _ e _ _ _ => (if e then en else dis, s + 1)
    st_hub_read_axis_data_asincronous := fun s _ _ => (rd, payload, s + 1)
    st_hub_send := fun s _ _ _ => (snd, s + 1)
    kmalloc := fun s _ => (true, s) }

theorem range_num_data_ch : List.range ST_HUB_MAGN_NUM_DATA_CH = [0, 1, 2, 3] := by decide

theorem list_length_seven {α : Type} (l : List α) (h : l.length = 7) :
    ∃ a b c d e f g, l = [a, b, c, d, e, f, g] := by
  match l, h with
  | [a, b, c, d, e, f, g], _ => exact ⟨a, b, c, d, e, f, g, rfl⟩

theorem list_length_ge_seven {α : Type} (l : List α) (h : 7 ≤ l.length) :
    ∃ a b c d e f g r, l = a :: b :: c :: d :: e :: f :: g :: r := by
  match l, h with
  | a :: b :: c :: d :: e :: f :: g :: r, _ => exact ⟨a, b, c, d, e, f, g, r, rfl⟩

/-- The push pipeline in closed form. -/
theorem push_data_eq (indio_dev : iio_dev) (data : List u8) (timestamp : Int)
    (hch : indio_dev.channels = st_hub_magn_ch)
    (hlen : data.length = 7)
    (hbuf : 7 ≤ indio_dev.mdata.buffer.length) :
    st_hub_magn_push_data indio_dev data timestamp =
      some { buffer := packed_record data indio_dev.active_scan_mask ++
                indio_dev.mdata.buffer.drop (packed_length indio_dev.active_scan_mask)
             init_copy := packed_length indio_dev.active_scan_mask
             sink := [(packed_record data indio_dev.active_scan_mask ++
                indio_dev.mdata.buffer.drop (packed_length indio_dev.active_scan_mask),
                timestamp)] } ∧
    (packed_record data indio_dev.active_scan_mask).length =
      packed_length indio_dev.active_scan_mask := by
  obtain ⟨a, b, c, d, e, f, g, rfl⟩ := list_length_seven data hlen
  obtain ⟨b0, b1, b2, b3, b4, b5, b6, r, hb⟩ := list_length_ge_seven _ hbuf
  unfold st_hub_magn_push_data packed_record packed_length
  rw [range_num_data_ch]
  cases h0 : indio_dev.active_scan_mask.testBit 0 <;>
  cases h1 : indio_dev.active_scan_mask.testBit 1 <;>
  cases h2 : indio_dev.active_scan_mask.testBit 2 <;>
  cases h3 : indio_dev.active_scan_mask.testBit 3 <;>
  simp [push_data_step, test_bit, memcpy, hch, hb, h0, h1, h2, h3, st_hub_magn_ch,
    ST_HUB_DEVICE_CHANNEL, channel_bytes, payload_offset, storage_width]

theorem le16_eq (lo hi : u8) : lo.val ||| (hi.val <<< 8) = lo.val + 256 * hi.val := by
  have h1 : lo.val < 2 ^ 8 := lo.isLt
  rw [Nat.shiftLeft_eq, Nat.or_comm, Nat.mul_comm, ← Nat.mul_add_lt_is_or h1]
  omega

theorem s16_le16 (lo hi : u8) : s16 (lo.val ||| (hi.val <<< 8)) = signed_le16 lo hi := by
  have h1 : lo.val < 256 := lo.isLt
  have h2 : hi.val < 256 := hi.isLt
  rw [le16_eq]
  unfold s16 signed_le16
  have : (lo.val + 256 * hi.val) % 65536 = lo.val + 256 * hi.val := Nat.mod_eq_of_lt (by omega)
  rw [this]

/-- The decode of a 7-byte payload at a data channel is the channel value. -/
theorem read_axis_decode_eq (payload : List u8) (index : Nat)
    (hlen : payload.length = 7) (hidx : index ≤ 3) :
    read_axis_decode payload (16 >>> 3) index = some (channel_value payload index) := by
  obtain ⟨a, b, c, d, e, f, g, rfl⟩ := list_length_seven payload hlen
  have h : index = 0 ∨ index = 1 ∨ index = 2 ∨ index = 3 := by omega
  rcases h with rfl | rfl | rfl | rfl <;>
  simp [read_axis_decode, channel_value, get_unaligned_le16, payload_offset,
    ST_HUB_MAGN_NUM_DATA_CH, s16_le16]

theorem channels_head (indio_dev : iio_dev) (hch : indio_dev.channels = st_hub_magn_ch) :
    indio_dev.channels[0]? = some (ST_HUB_DEVICE_CHANNEL iio_chan_type.IIO_MAGN 0 1
      iio_modifier.IIO_MOD_X iio_endian.IIO_LE 16 16
      (BIT IIO_CHAN_INFO_RAW.toNat ||| BIT IIO_CHAN_INFO_SCALE.toNat) 0 0 's') := by
  rw [hch]; rfl

/-- A direct read whose allocation and three transport calls succeed, in closed form. -/
theorem read_axis_success_eq {σ : Type} (k : hub_transport σ) (hdata : σ)
    (indio_dev : iio_dev) (index : Nat)
    (hch : indio_dev.channels = st_hub_magn_ch)
    (hk : (run_kmalloc k hdata indio_dev).1 = true)
    (hen : 0 ≤ (run_enable k hdata indio_dev).1)
    (hrd : 0 ≤ (run_read k hdata indio_dev).1)
    (hdis : 0 ≤ (run_disable k hdata indio_dev).1)
    (hlen : (run_read k hdata indio_dev).2.1.length = 7)
    (hidx : index ≤ 3) :
    st_hub_read_axis_data k hdata indio_dev index =
      some { err := (run_disable k hdata indio_dev).1
             data := some (channel_value (run_read k hdata indio_dev).2.1 index)
             hub := (run_disable k hdata indio_dev).2
             calls := direct_read_calls indio_dev.info.index
               indio_dev.mdata.cdata.payload_byte } := by
  have hd := read_axis_decode_eq _ index hlen hidx
  simp only [run_kmalloc, run_enable, run_read, run_disable] at hk hen hrd hdis hd ⊢
  unfold st_hub_read_axis_data
  rw [channels_head indio_dev hch]
  simp only [ST_HUB_DEVICE_CHANNEL, hk, not_lt.mpr hen, not_lt.mpr hrd, not_lt.mpr hdis, hd,
    direct_read_calls]
  simp

/-- A direct read whose disable call fails, in closed form. -/
theorem read_axis_disable_failure_eq {σ : Type} (k : hub_transport σ) (hdata : σ)
    (indio_dev : iio_dev) (index : Nat)
    (hch : indio_dev.channels = st_hub_magn_ch)
    (hk : (run_kmalloc k hdata indio_dev).1 = true)
    (hen : 0 ≤ (run_enable k hdata indio_dev).1)
    (hrd : 0 ≤ (run_read k hdata indio_dev).1)
    (hdis : (run_disable k hdata indio_dev).1 < 0) :
    st_hub_read_axis_data k hdata indio_dev index =
      some { err := (run_disable k hdata indio_dev).1
             data := none
             hub := (run_disable k hdata indio_dev).2
             calls := direct_read_calls indio_dev.info.index
               indio_dev.mdata.cdata.payload_byte } := by
  simp only [run_kmalloc, run_enable, run_read, run_disable] at hk hen hrd hdis ⊢
  unfold st_hub_read_axis_data
  rw [channels_head indio_dev hch]
  simp only [ST_HUB_DEVICE_CHANNEL, hk, not_lt.mpr hen, not_lt.mpr hrd, hdis,
    direct_read_calls]
  simp

/-! ## The push pipeline -/

/-- C1: for every 7-byte payload and every active scan mask,
`st_hub_magn_push_data` leaves at the front of the scratch buffer exactly the
bytes of the active channels, in declared order, each taken from its payload
offset 0, 2, 4, 6 (the rest of the buffer is untouched), the packed length is
the sum of the storage widths of the active channels, and that buffer is handed
with the supplied timestamp to the sink in exactly one append. -/
theorem push_data_packs_active_channels (indio_dev : iio_dev) (data : List u8)
    (timestamp : Int)
    (hch : indio_dev.channels = st_hub_magn_ch)
    (hlen : data.length = 7)
    (hbuf : 7 ≤ indio_dev.mdata.buffer.length) :
    ∃ r, st_hub_magn_push_data indio_dev data timestamp = some r ∧
      r.buffer.take r.init_copy =
        (List.range 4).flatMap (fun i =>
          if indio_dev.active_scan_mask.testBit i then
            (data.drop ([0, 2, 4, 6].getD i 0)).take (storage_width i)
          else []) ∧
      r.buffer.drop r.init_copy = indio_dev.mdata.buffer.drop r.init_copy ∧
      r.init_copy =
        ((List.range 4).map (fun i =>
          if indio_dev.active_scan_mask.testBit i then storage_width i else 0)).sum ∧
      r.sink = [(r.buffer, timestamp)] ∧
      [storage_width 0, storage_width 1, storage_width 2, storage_width 3] = [2, 2, 2, 1] := by
  obtain ⟨h1, h2⟩ := push_data_eq indio_dev data timestamp hch hlen hbuf
  refine ⟨_, h1, ?_, ?_, ?_, rfl, by decide⟩
  · simp only [← h2, List.take_left]
    rfl
  · simp only [← h2, List.drop_left]
  · rfl

/-- Witness for C1: the two scenarios of the specification. With all channels
active the payload is packed verbatim; with only Y active the packed record is
`[0x02, 0x00]`. -/
theorem push_data_packs_active_channels_witness :
    (∃ r, st_hub_magn_push_data (sample_dev 2 15) sample_payload 42 = some r ∧
      r.buffer.take r.init_copy = sample_payload ∧ r.init_copy = 7 ∧
      r.sink = [(r.buffer, 42)]) ∧
    (∃ r, st_hub_magn_push_data (sample_dev 2 2) sample_payload 42 = some r ∧
      r.buffer.take r.init_copy = [0x02, 0x00] ∧ r.init_copy = 2 ∧
      r.sink = [(r.buffer, 42)]) := by
  constructor
  · obtain ⟨r, h, h1, _, h3, h4, _⟩ :=
      push_data_packs_active_channels (sample_dev 2 15) sample_payload 42 rfl rfl
        (by decide)
    exact ⟨r, h, h1.trans (by decide), h3.trans (by decide), h4⟩
  · obtain ⟨r, h, h1, _, h3, h4, _⟩ :=
      push_data_packs_active_channels (sample_dev 2 2) sample_payload 42 rfl rfl
        (by decide)
    exact ⟨r, h, h1.trans (by decide), h3.trans (by decide), h4⟩

/-! ## The direct read -/

/-- C2: while streaming (triggered buffer) mode is active, a raw-value read of
any channel through `st_hub_magn_read_raw` returns `-EBUSY`, leaves both output
values at 0, makes no transport call and leaves the collaborators' state as it
was. -/
theorem read_raw_busy_while_streaming {σ : Type} (k : hub_transport σ) (hdata : σ)
    (indio_dev : iio_dev) (ch : iio_chan_spec)
    (hmode : indio_dev.currentmode = INDIO_BUFFER_TRIGGERED) :
    st_hub_magn_read_raw k hdata indio_dev ch IIO_CHAN_INFO_RAW =
      some { ret := -EBUSY, val := 0, val2 := 0, hub := hdata, calls := [] } := by
  simp [st_hub_magn_read_raw, hmode]

/-- Witness for C2: a streaming device over the sample transport. -/
theorem read_raw_busy_while_streaming_witness :
    (sample_dev 2 15).currentmode = INDIO_BUFFER_TRIGGERED ∧
    st_hub_magn_read_raw (sample_transport 0 0 0 0 sample_payload) 0 (sample_dev 2 15)
        (IIO_CHAN_SOFT_TIMESTAMP 1) IIO_CHAN_INFO_RAW =
      some { ret := -16, val := 0, val2 := 0, hub := 0, calls := [] } :=
  ⟨rfl, read_raw_busy_while_streaming (sample_transport 0 0 0 0 sample_payload) 0
    (sample_dev 2 15) (IIO_CHAN_SOFT_TIMESTAMP 1) rfl⟩

/-- C3: whenever `st_hub_read_axis_data` returns a non-negative value, the
allocation and the enable, blocking read and disable calls all succeeded, and
the transport calls made are exactly one enable of this device, one blocking
read of `payload_byte` bytes and one disable of this device, in that order;
a value is stored through `data` only when all three calls have succeeded; and
when they all succeed on a 7-byte payload and a data channel, the function does
return the disable result with the decoded channel. -/
theorem read_axis_success_call_sequence {σ : Type} (k : hub_transport σ) (hdata : σ)
    (indio_dev : iio_dev) (index : Nat)
    (hch : indio_dev.channels = st_hub_magn_ch) :
    (∀ r, st_hub_read_axis_data k hdata indio_dev index = some r → 0 ≤ r.err →
      (0 ≤ (run_enable k hdata indio_dev).1 ∧ 0 ≤ (run_read k hdata indio_dev).1 ∧
        0 ≤ (run_disable k hdata indio_dev).1) ∧
      r.calls =
        [ hub_call.st_hub_set_enable indio_dev.info.index true true 0 true,
          hub_call.st_hub_read_axis_data_asincronous indio_dev.info.index
            indio_dev.mdata.cdata.payload_byte,
          hub_call.st_hub_set_enable indio_dev.info.index false true 0 true ] ∧
      r.err = (run_disable k hdata indio_dev).1 ∧
      r.hub = (run_disable k hdata indio_dev).2 ∧
      r.data.isSome = true) ∧
    (∀ r, st_hub_read_axis_data k hdata indio_dev index = some r → r.data.isSome = true →
      0 ≤ (run_enable k hdata indio_dev).1 ∧ 0 ≤ (run_read k hdata indio_dev).1 ∧
        0 ≤ (run_disable k hdata indio_dev).1) ∧
    ((run_kmalloc k hdata indio_dev).1 = true →
      0 ≤ (run_enable k hdata indio_dev).1 → 0 ≤ (run_read k hdata indio_dev).1 →
      0 ≤ (run_disable k hdata indio_dev).1 →
      (run_read k hdata indio_dev).2.1.length = 7 → index ≤ 3 →
      ∃ r, st_hub_read_axis_data k hdata indio_dev index = some r ∧ 0 ≤ r.err ∧
        r.data = some (channel_value (run_read k hdata indio_dev).2.1 index)) := by
  refine ⟨?_, ?_, ?_⟩
  · intro r hr herr
    simp only [run_kmalloc, run_enable, run_read, run_disable]
    unfold st_hub_read_axis_data at hr
    rw [channels_head indio_dev hch] at hr
    simp only at hr
    split at hr
    · cases hr; simp [EINVAL] at herr
    · split at hr
      · cases hr; simp only at herr; omega
      · split at hr
        · cases hr; simp only at herr; omega
        · split at hr
          · cases hr; simp only at herr; omega
          · split at hr
            · cases hr
            · cases hr
              refine ⟨⟨by omega, by omega, by omega⟩, ?_, rfl, rfl, rfl⟩
              simp
  · intro r hr hdata
    simp only [run_kmalloc, run_enable, run_read, run_disable]
    unfold st_hub_read_axis_data at hr
    rw [channels_head indio_dev hch] at hr
    simp only at hr
    split at hr
    · cases hr; simp at hdata
    · split at hr
      · cases hr; simp at hdata
      · split at hr
        · cases hr; simp at hdata
        · split at hr
          · cases hr; simp at hdata
          · split at hr
            · cases hr
            · cases hr
              exact ⟨by omega, by omega, by omega⟩
  · intro hk hen hrd hdis hlen hidx
    exact ⟨_, read_axis_success_eq k hdata indio_dev index hch hk hen hrd hdis hlen hidx,
      hdis, rfl⟩

/-- Witness for C3: reading Y from the sample payload over a transport on which
every call succeeds. -/
theorem read_axis_success_call_sequence_witness :
    ∃ r, st_hub_read_axis_data (sample_transport 0 0 0 0 sample_payload) 0
        (sample_dev 1 0) 1 = some r ∧
      r.err = 0 ∧ r.data = some 2 ∧
      r.calls =
        [ hub_call.st_hub_set_enable 3 true true 0 true,
          hub_call.st_hub_read_axis_data_asincronous 3 7,
          hub_call.st_hub_set_enable 3 false true 0 true ] := by
  have h := read_axis_success_call_sequence (sample_transport 0 0 0 0 sample_payload) 0
    (sample_dev 1 0) 1 rfl
  obtain ⟨r, hr, herr, hdata⟩ := h.2.2 rfl (by decide) (by decide) (by decide) rfl (by decide)
  obtain ⟨_, hcalls, herr2, _, _⟩ := h.1 r hr herr
  exact ⟨r, hr, herr2.trans (by decide), hdata.trans (by decide), hcalls⟩

/-- C4: when the enable call succeeds and the blocking read returns a negative
error code, `st_hub_read_axis_data` returns exactly that error code, stores
nothing through `data`, and the transport calls made are the enable and the
read only: no disable call is issued. -/
theorem read_axis_read_failure_no_disable {σ : Type} (k : hub_transport σ) (hdata : σ)
    (indio_dev : iio_dev) (index : Nat)
    (hch : indio_dev.channels = st_hub_magn_ch)
    (hk : (run_kmalloc k hdata indio_dev).1 = true)
    (hen : 0 ≤ (run_enable k hdata indio_dev).1)
    (hrd : (run_read k hdata indio_dev).1 < 0) :
    ∃ r, st_hub_read_axis_data k hdata indio_dev index = some r ∧
      r.err = (run_read k hdata indio_dev).1 ∧
      r.data = none ∧
      r.hub = (run_read k hdata indio_dev).2.2 ∧
      r.calls =
        [ hub_call.st_hub_set_enable indio_dev.info.index true true 0 true,
          hub_call.st_hub_read_axis_data_asincronous indio_dev.info.index
            indio_dev.mdata.cdata.payload_byte ] ∧
      ∀ i a1 a2 a3, hub_call.st_hub_set_enable i false a1 a2 a3 ∉ r.calls := by
  simp only [run_kmalloc, run_enable, run_read] at hk hen hrd ⊢
  unfold st_hub_read_axis_data
  rw [channels_head indio_dev hch]
  simp only [ST_HUB_DEVICE_CHANNEL, hk, not_lt.mpr hen, hrd]
  simp

/-- Witness for C4: the blocking read fails with -5 after a successful enable. -/
theorem read_axis_read_failure_no_disable_witness :
    ∃ r, st_hub_read_axis_data (sample_transport 0 (-5) 0 0 sample_payload) 0
        (sample_dev 1 0) 1 = some r ∧
      r.err = -5 ∧ r.data = none ∧
      r.calls =
        [ hub_call.st_hub_set_enable 3 true true 0 true,
          hub_call.st_hub_read_axis_data_asincronous 3 7 ] := by
  obtain ⟨r, hr, herr, hdata, _, hcalls, _⟩ :=
    read_axis_read_failure_no_disable (sample_transport 0 (-5) 0 0 sample_payload) 0
      (sample_dev 1 0) 1 rfl rfl (by decide) (by decide)
  exact ⟨r, hr, herr, hdata, hcalls⟩

/-- C5: when enable and the blocking read succeed and the disable call returns
a negative error code, `st_hub_read_axis_data` returns exactly that error code
and stores nothing through `data`, whatever the payload holds; and a raw-value
read through `st_hub_magn_read_raw` outside streaming mode returns that error
code with `*val` left at 0. -/
theorem read_disable_failure_discards_sample {σ : Type} (k : hub_transport σ) (hdata : σ)
    (indio_dev : iio_dev) (index : Nat) (ch : iio_chan_spec)
    (hch : indio_dev.channels = st_hub_magn_ch)
    (hmode : indio_dev.currentmode ≠ INDIO_BUFFER_TRIGGERED)
    (hk : (run_kmalloc k hdata indio_dev).1 = true)
    (hen : 0 ≤ (run_enable k hdata indio_dev).1)
    (hrd : 0 ≤ (run_read k hdata indio_dev).1)
    (hdis : (run_disable k hdata indio_dev).1 < 0) :
    st_hub_read_axis_data k hdata indio_dev index =
      some { err := (run_disable k hdata indio_dev).1
             data := none
             hub := (run_disable k hdata indio_dev).2
             calls :=
               [ hub_call.st_hub_set_enable indio_dev.info.index true true 0 true,
                 hub_call.st_hub_read_axis_data_asincronous indio_dev.info.index
                   indio_dev.mdata.cdata.payload_byte,
                 hub_call.st_hub_set_enable indio_dev.info.index false true 0 true ] } ∧
    st_hub_magn_read_raw k hdata indio_dev ch IIO_CHAN_INFO_RAW =
      some { ret := (run_disable k hdata indio_dev).1
             val := 0
             val2 := 0
             hub := (run_disable k hdata indio_dev).2
             calls :=
               [ hub_call.st_hub_set_enable indio_dev.info.index true true 0 true,
                 hub_call.st_hub_read_axis_data_asincronous indio_dev.info.index
                   indio_dev.mdata.cdata.payload_byte,
                 hub_call.st_hub_set_enable indio_dev.info.index false true 0 true ] } := by
  constructor
  · exact read_axis_disable_failure_eq k hdata indio_dev index hch hk hen hrd hdis
  · unfold st_hub_magn_read_raw
    rw [read_axis_disable_failure_eq k hdata indio_dev ch.scan_index hch hk hen hrd hdis]
    simp [hmode, hdis, direct_read_calls]

/-- Witness for C5: the disable call fails with -7 after the sample payload was
read. -/
theorem read_disable_failure_discards_sample_witness :
    st_hub_read_axis_data (sample_transport 0 0 (-7) 0 sample_payload) 0 (sample_dev 1 0) 1 =
      some { err := -7, data := none, hub := 3
             calls :=
               [ hub_call.st_hub_set_enable 3 true true 0 true,
                 hub_call.st_hub_read_axis_data_asincronous 3 7,
                 hub_call.st_hub_set_enable 3 false true 0 true ] } ∧
    st_hub_magn_read_raw (sample_transport 0 0 (-7) 0 sample_payload) 0 (sample_dev 1 0)
        (ST_HUB_DEVICE_CHANNEL iio_chan_type.IIO_MAGN 1 1 iio_modifier.IIO_MOD_Y
          iio_endian.IIO_LE 16 16 5 0 0 's') IIO_CHAN_INFO_RAW =
      some { ret := -7, val := 0, val2 := 0, hub := 3
             calls :=
               [ hub_call.st_hub_set_enable 3 true true 0 true,
                 hub_call.st_hub_read_axis_data_asincronous 3 7,
                 hub_call.st_hub_set_enable 3 false true 0 true ] } :=
  read_disable_failure_discards_sample (sample_transport 0 0 (-7) 0 sample_payload) 0
    (sample_dev 1 0) 1
    (ST_HUB_DEVICE_CHANNEL iio_chan_type.IIO_MAGN 1 1 iio_modifier.IIO_MOD_Y
      iio_endian.IIO_LE 16 16 5 0 0 's')
    rfl (by decide) rfl (by decide) (by decide) (by decide)

/-- C6: when the enable call returns a negative error code,
`st_hub_read_axis_data` returns exactly that error code, stores nothing through
`data`, and the enable is the only transport call: nothing is read and no
disable is requested; the collaborators are left in the state the enable call
left them. -/
theorem read_axis_enable_failure_stops {σ : Type} (k : hub_transport σ) (hdata : σ)
    (indio_dev : iio_dev) (index : Nat)
    (hch : indio_dev.channels = st_hub_magn_ch)
    (hk : (run_kmalloc k hdata indio_dev).1 = true)
    (hen : (run_enable k hdata indio_dev).1 < 0) :
    st_hub_read_axis_data k hdata indio_dev index =
      some { err := (run_enable k hdata indio_dev).1
             data := none
             hub := (run_enable k hdata indio_dev).2
             calls := [hub_call.st_hub_set_enable indio_dev.info.index true true 0 true] } := by
  simp only [run_kmalloc, run_enable] at hk hen ⊢
  unfold st_hub_read_axis_data
  rw [channels_head indio_dev hch]
  simp only [ST_HUB_DEVICE_CHANNEL, hk, hen]
  simp

/-- Witness for C6: the enable call fails with -5. -/
theorem read_axis_enable_failure_stops_witness :
    st_hub_read_axis_data (sample_transport (-5) 0 0 0 sample_payload) 0 (sample_dev 1 0) 1 =
      some { err := -5, data := none, hub := 1
             calls := [hub_call.st_hub_set_enable 3 true true 0 true] } :=
  read_axis_enable_failure_stops (sample_transport (-5) 0 0 0 sample_payload) 0
    (sample_dev 1 0) 1 rfl rfl (by decide)

/-- The channel value of the accuracy channel is an unsigned byte; that of an
axis is a signed 16-bit integer. -/
theorem channel_value_range (payload : List u8) (index : Nat) :
    (index = 3 → 0 ≤ channel_value payload index ∧ channel_value payload index ≤ 255) ∧
    (index ≠ 3 → -32768 ≤ channel_value payload index ∧
      channel_value payload index ≤ 32767) := by
  constructor
  · intro h
    have hb := (payload.getD (payload_offset index) 0).isLt
    simp only [channel_value, h, if_true]
    omega
  · intro h
    have h1 := (payload.getD (payload_offset index) 0).isLt
    have h2 := (payload.getD (payload_offset index + 1) 0).isLt
    simp only [channel_value, h, if_false, signed_le16]
    split <;> omega

/-- The bytes of a data channel in a 7-byte payload, and the channel value they
encode. -/
theorem channel_value_of_bytes (payload : List u8) (index : Nat)
    (hlen : payload.length = 7) :
    (index < 3 → ∃ lo hi, (payload.drop (2 * index)).take 2 = [lo, hi] ∧
      channel_bytes payload index = [lo, hi] ∧
      channel_value payload index = signed_le16 lo hi) ∧
    (index = 3 → ∃ b, (payload.drop 6).take 1 = [b] ∧
      channel_bytes payload index = [b] ∧
      channel_value payload index = (b.val : Int)) := by
  obtain ⟨a, b, c, d, e, f, g, rfl⟩ := list_length_seven payload hlen
  constructor
  · intro h
    have h : index = 0 ∨ index = 1 ∨ index = 2 := by omega
    rcases h with rfl | rfl | rfl
    · exact ⟨a, b, by simp [channel_bytes, channel_value, payload_offset, storage_width,
        st_hub_magn_ch, ST_HUB_DEVICE_CHANNEL]⟩
    · exact ⟨c, d, by simp [channel_bytes, channel_value, payload_offset, storage_width,
        st_hub_magn_ch, ST_HUB_DEVICE_CHANNEL]⟩
    · exact ⟨e, f, by simp [channel_bytes, channel_value, payload_offset, storage_width,
        st_hub_magn_ch, ST_HUB_DEVICE_CHANNEL]⟩
  · rintro rfl
    simp [channel_bytes, channel_value, payload_offset, storage_width, st_hub_magn_ch,
      ST_HUB_DEVICE_CHANNEL]

/-- With only channel `i` active the packed record is the bytes of channel `i`. -/
theorem packed_record_single (payload : List u8) (index : Nat) (hidx : index ≤ 3) :
    packed_record payload (2 ^ index) = channel_bytes payload index ∧
    packed_length (2 ^ index) = storage_width index := by
  have h : index = 0 ∨ index = 1 ∨ index = 2 ∨ index = 3 := by omega
  rcases h with rfl | rfl | rfl | rfl <;>
  simp [packed_record, packed_length, range_num_data_ch, Nat.testBit]

/-- A raw-value read whose allocation and three transport calls succeed, in
closed form. -/
theorem read_raw_success_eq {σ : Type} (k : hub_transport σ) (hdata : σ)
    (indio_dev : iio_dev) (ch : iio_chan_spec)
    (hch : indio_dev.channels = st_hub_magn_ch)
    (hmode : indio_dev.currentmode ≠ INDIO_BUFFER_TRIGGERED)
    (hk : (run_kmalloc k hdata indio_dev).1 = true)
    (hen : 0 ≤ (run_enable k hdata indio_dev).1)
    (hrd : 0 ≤ (run_read k hdata indio_dev).1)
    (hdis : 0 ≤ (run_disable k hdata indio_dev).1)
    (hlen : (run_read k hdata indio_dev).2.1.length = 7)
    (hidx : ch.scan_index ≤ 3)
    (hshift : ch.scan_type.shift < BITS_PER_INT) :
    st_hub_magn_read_raw k hdata indio_dev ch IIO_CHAN_INFO_RAW =
      some { ret := IIO_VAL_INT
             val := channel_value (run_read k hdata indio_dev).2.1 ch.scan_index >>>
               ch.scan_type.shift
             val2 := 0
             hub := (run_disable k hdata indio_dev).2
             calls := direct_read_calls indio_dev.info.index
               indio_dev.mdata.cdata.payload_byte } := by
  unfold st_hub_magn_read_raw
  rw [read_axis_success_eq k hdata indio_dev ch.scan_index hch hk hen hrd hdis hlen hidx]
  simp [hmode, not_lt.mpr hdis, not_le.mpr hshift]

/-- C7: for every 7-byte payload delivered by the blocking read, a successful
`st_hub_read_axis_data` stores a value in [0, 255] when the requested channel
is the accuracy channel (index 3) and a value in [-32768, 32767] when it is an
axis channel (index 0, 1 or 2); this is the value before any shift. -/
theorem read_axis_value_range {σ : Type} (k : hub_transport σ) (hdata : σ)
    (indio_dev : iio_dev) (index : Nat)
    (hch : indio_dev.channels = st_hub_magn_ch)
    (hk : (run_kmalloc k hdata indio_dev).1 = true)
    (hen : 0 ≤ (run_enable k hdata indio_dev).1)
    (hrd : 0 ≤ (run_read k hdata indio_dev).1)
    (hdis : 0 ≤ (run_disable k hdata indio_dev).1)
    (hlen : (run_read k hdata indio_dev).2.1.length = 7)
    (hidx : index ≤ 3) :
    ∃ r v, st_hub_read_axis_data k hdata indio_dev index = some r ∧ 0 ≤ r.err ∧
      r.data = some v ∧
      (index = 3 → 0 ≤ v ∧ v ≤ 255) ∧
      (index < 3 → -32768 ≤ v ∧ v ≤ 32767) := by
  have hr := channel_value_range (run_read k hdata indio_dev).2.1 index
  exact ⟨_, _, read_axis_success_eq k hdata indio_dev index hch hk hen hrd hdis hlen hidx,
    hdis, rfl, hr.1, fun h => hr.2 (by omega)⟩

/-- Witness for C7: the extreme encodings. Accuracy byte 0xff reads as 255 and
the axis bytes `00 80` read as -32768. -/
theorem read_axis_value_range_witness :
    (∃ r v, st_hub_read_axis_data
        (sample_transport 0 0 0 0 [0xff, 0x7f, 0x00, 0x80, 0xff, 0xff, 0xff]) 0
        (sample_dev 1 0) 3 = some r ∧ r.data = some v ∧ 0 ≤ v ∧ v ≤ 255) ∧
    (∃ r v, st_hub_read_axis_data
        (sample_transport 0 0 0 0 [0xff, 0x7f, 0x00, 0x80, 0xff, 0xff, 0xff]) 0
        (sample_dev 1 0) 1 = some r ∧ r.data = some v ∧ -32768 ≤ v ∧ v ≤ 32767) := by
  constructor
  · obtain ⟨r, v, hr, _, hv, h3, _⟩ := read_axis_value_range
      (sample_transport 0 0 0 0 [0xff, 0x7f, 0x00, 0x80, 0xff, 0xff, 0xff]) 0
      (sample_dev 1 0) 3 rfl rfl (by decide) (by decide) (by decide) rfl (by decide)
    exact ⟨r, v, hr, hv, h3 rfl⟩
  · obtain ⟨r, v, hr, _, hv, _, h1⟩ := read_axis_value_range
      (sample_transport 0 0 0 0 [0xff, 0x7f, 0x00, 0x80, 0xff, 0xff, 0xff]) 0
      (sample_dev 1 0) 1 rfl rfl (by decide) (by decide) (by decide) rfl (by decide)
    exact ⟨r, v, hr, hv, h1 (by decide)⟩

/-- C8: for every 7-byte payload and every data channel `i` in 0..3, a
successful raw-value read of channel `i` returns `IIO_VAL_INT` and the value
stored at that channel's position in the payload: for an axis the two bytes at
offset `2 * i` as a signed little-endian 16-bit integer, for accuracy the byte
at offset 6 as an unsigned value, in both cases shifted right arithmetically
(rounding towards minus infinity) by the channel's declared shift, a shift
count below the 32 bits of `int` (C leaves larger counts undefined; the table's
channels declare 0). These are the bytes the push pipeline copies for channel
`i`: with only channel `i` active it packs exactly them. -/
theorem read_raw_returns_channel_value {σ : Type} (k : hub_transport σ) (hdata : σ)
    (indio_dev : iio_dev) (ch : iio_chan_spec)
    (hch : indio_dev.channels = st_hub_magn_ch)
    (hmode : indio_dev.currentmode ≠ INDIO_BUFFER_TRIGGERED)
    (hk : (run_kmalloc k hdata indio_dev).1 = true)
    (hen : 0 ≤ (run_enable k hdata indio_dev).1)
    (hrd : 0 ≤ (run_read k hdata indio_dev).1)
    (hdis : 0 ≤ (run_disable k hdata indio_dev).1)
    (hlen : (run_read k hdata indio_dev).2.1.length = 7)
    (hidx : ch.scan_index ≤ 3)
    (hshift : ch.scan_type.shift < 32) :
    ∃ r, st_hub_magn_read_raw k hdata indio_dev ch IIO_CHAN_INFO_RAW = some r ∧
      r.ret = IIO_VAL_INT ∧
      (ch.scan_index < 3 → ∃ lo hi,
        ((run_read k hdata indio_dev).2.1.drop (2 * ch.scan_index)).take 2 = [lo, hi] ∧
        r.val = signed_le16 lo hi >>> ch.scan_type.shift ∧
        r.val = signed_le16 lo hi / (2 ^ ch.scan_type.shift : Nat)) ∧
      (ch.scan_index = 3 → ∃ b,
        ((run_read k hdata indio_dev).2.1.drop 6).take 1 = [b] ∧
        r.val = (b.val : Int) >>> ch.scan_type.shift ∧
        r.val = (b.val : Int) / (2 ^ ch.scan_type.shift : Nat)) ∧
      (7 ≤ indio_dev.mdata.buffer.length → ∀ timestamp, ∃ p,
        st_hub_magn_push_data { indio_dev with active_scan_mask := 2 ^ ch.scan_index }
          (run_read k hdata indio_dev).2.1 timestamp = some p ∧
        p.buffer.take p.init_copy =
          ((run_read k hdata indio_dev).2.1.drop ([0, 2, 4, 6].getD ch.scan_index 0)).take
            (storage_width ch.scan_index)) := by
  have hb := channel_value_of_bytes (run_read k hdata indio_dev).2.1 ch.scan_index hlen
  refine ⟨_, read_raw_success_eq k hdata indio_dev ch hch hmode hk hen hrd hdis hlen hidx
    hshift, rfl, ?_, ?_, ?_⟩
  · intro h
    obtain ⟨lo, hi, h1, _, h3⟩ := hb.1 h
    exact ⟨lo, hi, h1, by rw [h3], by rw [h3, Int.shiftRight_eq_div_pow]⟩
  · intro h
    obtain ⟨b, h1, _, h3⟩ := hb.2 h
    exact ⟨b, h1, by rw [h3], by rw [h3, Int.shiftRight_eq_div_pow]⟩
  · intro hbuf timestamp
    obtain ⟨h1, h2⟩ := push_data_eq
      { indio_dev with active_scan_mask := 2 ^ ch.scan_index }
      (run_read k hdata indio_dev).2.1 timestamp hch hlen hbuf
    obtain ⟨h3, _⟩ := packed_record_single (run_read k hdata indio_dev).2.1 ch.scan_index hidx
    refine ⟨_, h1, ?_⟩
    simp only [← h2, List.take_left]
    rw [h3]
    rfl

/-- Witness for C8: the sample payload with shift 0 reads as X = 1, Y = 2,
Z = 3 and accuracy = 5. -/
theorem read_raw_returns_channel_value_witness :
    (∃ r, st_hub_magn_read_raw (sample_transport 0 0 0 0 sample_payload) 0 (sample_dev 1 0)
        (ST_HUB_DEVICE_CHANNEL iio_chan_type.IIO_MAGN 0 1 iio_modifier.IIO_MOD_X
          iio_endian.IIO_LE 16 16 5 0 0 's') IIO_CHAN_INFO_RAW = some r ∧ r.val = 1) ∧
    (∃ r, st_hub_magn_read_raw (sample_transport 0 0 0 0 sample_payload) 0 (sample_dev 1 0)
        (ST_HUB_DEVICE_CHANNEL iio_chan_type.IIO_MAGN 1 1 iio_modifier.IIO_MOD_Y
          iio_endian.IIO_LE 16 16 5 0 0 's') IIO_CHAN_INFO_RAW = some r ∧ r.val = 2) ∧
    (∃ r, st_hub_magn_read_raw (sample_transport 0 0 0 0 sample_payload) 0 (sample_dev 1 0)
        (ST_HUB_DEVICE_CHANNEL iio_chan_type.IIO_MAGN 2 1 iio_modifier.IIO_MOD_Z
          iio_endian.IIO_LE 16 16 5 0 0 's') IIO_CHAN_INFO_RAW = some r ∧ r.val = 3) ∧
    (∃ r, st_hub_magn_read_raw (sample_transport 0 0 0 0 sample_payload) 0 (sample_dev 1 0)
        (ST_HUB_DEVICE_CHANNEL iio_chan_type.IIO_MAGN 3 1 iio_modifier.IIO_MOD_ACCURACY
          iio_endian.IIO_LE 8 8 1 0 0 'u') IIO_CHAN_INFO_RAW = some r ∧ r.val = 5) := by
  refine ⟨?_, ?_, ?_, ?_⟩
  · obtain ⟨r, hr, _, hax, _, _⟩ := read_raw_returns_channel_value
      (sample_transport 0 0 0 0 sample_payload) 0 (sample_dev 1 0)
      (ST_HUB_DEVICE_CHANNEL iio_chan_type.IIO_MAGN 0 1 iio_modifier.IIO_MOD_X
        iio_endian.IIO_LE 16 16 5 0 0 's')
      rfl (by decide) rfl (by decide) (by decide) (by decide) rfl (by decide) (by decide)
    obtain ⟨lo, hi, hb, hv, _⟩ := hax (by decide)
    have hb2 : [(1 : u8), 0] = [lo, hi] := hb
    injection hb2 with h1 h2
    injection h2 with h2 _
    subst h1 h2
    exact ⟨r, hr, hv.trans (by decide)⟩
  · obtain ⟨r, hr, _, hax, _, _⟩ := read_raw_returns_channel_value
      (sample_transport 0 0 0 0 sample_payload) 0 (sample_dev 1 0)
      (ST_HUB_DEVICE_CHANNEL iio_chan_type.IIO_MAGN 1 1 iio_modifier.IIO_MOD_Y
        iio_endian.IIO_LE 16 16 5 0 0 's')
      rfl (by decide) rfl (by decide) (by decide) (by decide) rfl (by decide) (by decide)
    obtain ⟨lo, hi, hb, hv, _⟩ := hax (by decide)
    have hb2 : [(2 : u8), 0] = [lo, hi] := hb
    injection hb2 with h1 h2
    injection h2 with h2 _
    subst h1 h2
    exact ⟨r, hr, hv.trans (by decide)⟩
  · obtain ⟨r, hr, _, hax, _, _⟩ := read_raw_returns_channel_value
      (sample_transport 0 0 0 0 sample_payload) 0 (sample_dev 1 0)
      (ST_HUB_DEVICE_CHANNEL iio_chan_type.IIO_MAGN 2 1 iio_modifier.IIO_MOD_Z
        iio_endian.IIO_LE 16 16 5 0 0 's')
      rfl (by decide) rfl (by decide) (by decide) (by decide) rfl (by decide) (by decide)
    obtain ⟨lo, hi, hb, hv, _⟩ := hax (by decide)
    have hb2 : [(3 : u8), 0] = [lo, hi] := hb
    injection hb2 with h1 h2
    injection h2 with h2 _
    subst h1 h2
    exact ⟨r, hr, hv.trans (by decide)⟩
  · obtain ⟨r, hr, _, _, hacc, _⟩ := read_raw_returns_channel_value
      (sample_transport 0 0 0 0 sample_payload) 0 (sample_dev 1 0)
      (ST_HUB_DEVICE_CHANNEL iio_chan_type.IIO_MAGN 3 1 iio_modifier.IIO_MOD_ACCURACY
        iio_endian.IIO_LE 8 8 1 0 0 'u')
      rfl (by decide) rfl (by decide) (by decide) (by decide) rfl (by decide) (by decide)
    obtain ⟨b, hb, hv, _⟩ := hacc rfl
    have hb2 : [(5 : u8)] = [b] := hb
    injection hb2 with h1 _
    subst h1
    exact ⟨r, hr, hv.trans (by decide)⟩

/-! ## The calibration command -/

/-- The round trip of an `int` through `size_t` and back to `ssize_t`. -/
theorem ssize_t_of_int (err : Int) (h1 : -2 ^ 31 ≤ err) (h2 : err < 0) :
    to_ssize_t (to_size_t err) = err := by
  unfold to_ssize_t to_size_t BITS_PER_LONG
  have h3 : err % 2 ^ 64 = err + 2 ^ 64 := by
    rw [Int.emod_def]
    have : err / 2 ^ 64 = -1 := by omega
    rw [this]; ring
  rw [h3]
  have h4 : ((err + 2 ^ 64).toNat : Int) = err + 2 ^ 64 := Int.toNat_of_nonneg (by omega)
  have h5 : (err + 2 ^ 64).toNat % 2 ^ 64 = (err + 2 ^ 64).toNat := by
    apply Nat.mod_eq_of_lt
    omega
  rw [h5, h4]
  split <;> omega

/-- A size below 2^63 is returned unchanged as an `ssize_t`. -/
theorem ssize_t_of_size (size : Nat) (h : size < 2 ^ 63) : to_ssize_t size = (size : Int) := by
  unfold to_ssize_t BITS_PER_LONG
  have h5 : size % 2 ^ 64 = size := Nat.mod_eq_of_lt (by omega)
  rw [h5]
  split
  · rfl
  · omega

/-- C9: whatever the device state and the written input,
`st_hub_force_magn_calibration` submits exactly one command to the hub
transport, of exactly 2 bytes, the first being the single-force-calibration
opcode and the second the magnetometer sensor constant; it returns the full
size of the written input when the transport returns a non-negative result and
exactly the transport's error code when that is negative. The constants fit a
byte, the size is below 2^63 and the transport's result is an `int`. -/
theorem force_calibration_sends_one_command {σ : Type} (hdr : st_sensor_hub_h)
    (k : hub_transport σ) (hdata : σ) (buf : List u8) (size : Nat)
    (hop : hdr.ST_HUB_SINGLE_FORCE_CALIB < 256)
    (hidx : hdr.ST_MAGN_INDEX < 256)
    (hsize : size < 2 ^ 63)
    (herr : -2 ^ 31 ≤ (k.st_hub_send hdata
      [to_u8 hdr.ST_HUB_SINGLE_FORCE_CALIB, to_u8 hdr.ST_MAGN_INDEX] 2 true).1) :
    ∃ b0 b1 : u8, b0.val = hdr.ST_HUB_SINGLE_FORCE_CALIB ∧ b1.val = hdr.ST_MAGN_INDEX ∧
      (st_hub_force_magn_calibration hdr k hdata buf size).calls =
        [hub_call.st_hub_send [b0, b1] 2 true] ∧
      (st_hub_force_magn_calibration hdr k hdata buf size).hub =
        (k.st_hub_send hdata [b0, b1] 2 true).2 ∧
      (0 ≤ (k.st_hub_send hdata [b0, b1] 2 true).1 →
        (st_hub_force_magn_calibration hdr k hdata buf size).ret = (size : Int)) ∧
      ((k.st_hub_send hdata [b0, b1] 2 true).1 < 0 →
        (st_hub_force_magn_calibration hdr k hdata buf size).ret =
          (k.st_hub_send hdata [b0, b1] 2 true).1) := by
  refine ⟨to_u8 hdr.ST_HUB_SINGLE_FORCE_CALIB, to_u8 hdr.ST_MAGN_INDEX,
    Nat.mod_eq_of_lt hop, Nat.mod_eq_of_lt hidx, rfl, rfl, ?_, ?_⟩
  · intro h
    simp only [st_hub_force_magn_calibration, List.length_cons, List.length_nil,
      not_lt.mpr h, if_false]
    exact ssize_t_of_size size hsize
  · intro h
    simp only [st_hub_force_magn_calibration, List.length_cons, List.length_nil, h, if_true]
    exact ssize_t_of_int _ herr h

/-- Witness for C9: opcode 7 and sensor constant 3, a one-byte write, once with
the transport accepting the command and once with it failing with -5. -/
theorem force_calibration_sends_one_command_witness :
    ((st_hub_force_magn_calibration ⟨7, 3⟩ (sample_transport 0 0 0 0 []) 0 [49] 1).calls =
        [hub_call.st_hub_send [7, 3] 2 true] ∧
      (st_hub_force_magn_calibration ⟨7, 3⟩ (sample_transport 0 0 0 0 []) 0 [49] 1).ret = 1) ∧
    ((st_hub_force_magn_calibration ⟨7, 3⟩ (sample_transport 0 0 0 (-5) []) 0 [49] 1).calls =
        [hub_call.st_hub_send [7, 3] 2 true] ∧
      (st_hub_force_magn_calibration ⟨7, 3⟩ (sample_transport 0 0 0 (-5) []) 0 [49] 1).ret =
        -5) := by
  constructor
  · obtain ⟨b0, b1, h0, h1, hc, _, hok, _⟩ := force_calibration_sends_one_command ⟨7, 3⟩
      (sample_transport 0 0 0 0 []) 0 [49] 1 (by decide) (by decide) (by decide) (by decide)
    have e0 : b0 = 7 := Fin.ext h0
    have e1 : b1 = 3 := Fin.ext h1
    subst e0 e1
    exact ⟨hc, hok (by decide)⟩
  · obtain ⟨b0, b1, h0, h1, hc, _, _, hfail⟩ := force_calibration_sends_one_command ⟨7, 3⟩
      (sample_transport 0 0 0 (-5) []) 0 [49] 1 (by decide) (by decide) (by decide) (by decide)
    have e0 : b0 = 7 := Fin.ext h0
    have e1 : b1 = 3 := Fin.ext h1
    subst e0 e1
    exact ⟨hc, hfail (by decide)⟩

/-! ## Detach -/

end StHubMagn
